import Mathlib

/-!
# Interloper hotel-search service: verification of the specification claims

Shallow embedding of the core of the Interloper scraper service
(`app/main.py`, `app/cache.py`, `app/models/schemas.py`,
`app/scrapers/base.py`, `app/scrapers/booking_api.py`,
`app/scrapers/registry.py`) together with theorems settling the claims
C1–C10 about it.

Numeric values (`Decimal`, Python floats parsed from JSON) are modelled
as exact rationals; dates as integer day ordinals; the `md5` hex digest
from `hashlib` (a library function, not repository code) is passed as an
explicit function parameter wherever `_make_key` needs it.
-/

namespace Interloper

/-- Canonical hotel record (`schemas.py`, `HotelResult`), restricted to the
fields the claims touch.  The pydantic schema declares `price` as a *required*
`Decimal`; the orchestrator in `main.py` nevertheless guards against
`price is None`, so the field is carried as an `Option` here and the
required-ness of the pydantic constructor is modelled separately by
`mkHotelResult`. -/
structure HotelResult where
  platform : String
  hotel_id : String
  name : String
  price : Option ℚ
  currency : String := "USD"
  rating : Option ℚ := none
  review_count : Option Int := none
  address : Option String := none
  city : Option String := none
  cancellation_policy : Option String := none
  booking_url : Option String := none
  image_url : Option String := none
  deriving DecidableEq, Repr

/-- Sort key used by `search_hotels` (`main.py` line 121):
`(x.price is None, x.price or Decimal("999999"))`.  Python's `or` falls
through to the sentinel not only when the price is `None` but also when it
is `Decimal("0")`, which is falsy. -/
def sortKey (h : HotelResult) : Bool × ℚ :=
  (h.price.isNone,
    match h.price with
    | none => 999999
    | some p => if p = 0 then 999999 else p)

/-- Lexicographic order on the sort keys, `false < true` on the first
component (Python tuple comparison with booleans). -/
def keyLe (x y : Bool × ℚ) : Prop :=
  (x.1 = false ∧ y.1 = true) ∨ (x.1 = y.1 ∧ x.2 ≤ y.2)

instance (x y : Bool × ℚ) : Decidable (keyLe x y) := by
  unfold keyLe; infer_instance

/-- The comparison `search_hotels` sorts the merged result list by. -/
def priceLe (a b : HotelResult) : Prop := keyLe (sortKey a) (sortKey b)

instance (a b : HotelResult) : Decidable (priceLe a b) := by
  unfold priceLe; infer_instance

theorem keyLe_total (x y : Bool × ℚ) : keyLe x y ∨ keyLe y x := by
  rcases x with ⟨bx, qx⟩; rcases y with ⟨by_, qy⟩
  rcases bx <;> rcases by_ <;> rcases le_total qx qy with h | h <;>
    simp [keyLe, h]

theorem keyLe_trans {x y z : Bool × ℚ} (h₁ : keyLe x y) (h₂ : keyLe y z) :
    keyLe x z := by
  rcases x with ⟨bx, qx⟩; rcases y with ⟨by_, qy⟩; rcases z with ⟨bz, qz⟩
  rcases h₁ with ⟨h₁a, h₁b⟩ | ⟨h₁a, h₁b⟩ <;>
    rcases h₂ with ⟨h₂a, h₂b⟩ | ⟨h₂a, h₂b⟩ <;>
    subst_vars <;> simp_all [keyLe] <;> exact le_trans h₁b h₂b

instance : IsTotal HotelResult priceLe := ⟨fun a b => keyLe_total _ _⟩

instance : IsTrans HotelResult priceLe := ⟨fun _ _ _ => keyLe_trans⟩

instance : IsRefl HotelResult priceLe :=
  ⟨fun a => Or.inr ⟨rfl, le_refl _⟩⟩

/-- Outcome of one adapter task inside `search_hotels`: either its result
list, or the exception it raised (already rendered to a message). -/
inductive AdapterOutcome where
  | ok (results : List HotelResult)
  | err (message : String)
  deriving DecidableEq, Repr

/-- `SearchResponse` (`schemas.py`, lines 57–70), restricted to the fields
the orchestrator fills. -/
structure SearchResponse where
  success : Bool
  hotels : List HotelResult
  total_results : Nat
  platforms_searched : List String
  error_message : Option String
  deriving DecidableEq, Repr

/-- The result list an adapter contributes: its results, or `[]` when its
task raised (`run_scraper` returns `[]` after recording the error). -/
def outcomeResults : AdapterOutcome → List HotelResult
  | .ok rs => rs
  | .err _ => []

/-- The `f"{scraper.platform_name}: {str(e)}"` string recorded for a raised
adapter task, `none` for a successful one. -/
def outcomeError (platform : String) : AdapterOutcome → Option String
  | .ok _ => none
  | .err m => some (platform ++ ": " ++ m)

/-- Core of `search_hotels` (`main.py` lines 87–131) after scraper
selection: one entry per dispatched scraper, pairing its platform name with
its task's outcome.  `asyncio.gather` returns the per-task result lists in
dispatch order, which the concatenation follows; in the source the `errors`
list is appended to in completion order, which this sequential model fixes
to dispatch order (no theorem below depends on the order of entries inside
`error_message`). -/
def searchHotels (scrapers : List (String × AdapterOutcome)) : SearchResponse :=
  let errors := scrapers.filterMap fun s => outcomeError s.1 s.2
  let all_results := (scrapers.map fun s => outcomeResults s.2).flatten
  let sorted := all_results.insertionSort priceLe
  { success := errors.isEmpty || !all_results.isEmpty
    hotels := sorted
    total_results := all_results.length
    platforms_searched := scrapers.map Prod.fst
    error_message :=
      if errors.isEmpty then none else some (String.intercalate "; " errors) }

/-- The list of recorded error strings of a batch. -/
def batchErrors (scrapers : List (String × AdapterOutcome)) : List String :=
  scrapers.filterMap fun s => outcomeError s.1 s.2

theorem batchErrors_eq_nil_iff (scrapers : List (String × AdapterOutcome)) :
    batchErrors scrapers = [] ↔ ∀ s ∈ scrapers, ∀ m, s.2 ≠ .err m := by
  rw [batchErrors, List.filterMap_eq_nil_iff]
  constructor
  · intro h s hs m hm
    have hnone := h s hs
    rw [hm] at hnone
    simp [outcomeError] at hnone
  · intro h s hs
    cases he : s.2 with
    | ok rs => simp [outcomeError]
    | err m => exact absurd he (h s hs m)

theorem insertionSort_eq_nil_iff (l : List HotelResult) :
    l.insertionSort priceLe = [] ↔ l = [] := by
  constructor
  · intro h
    have hlen := List.length_insertionSort priceLe l
    rw [h] at hlen
    exact List.length_eq_zero.mp hlen.symm
  · intro h; rw [h]; rfl

/-- Success flag as claim C1's words state it: false only when *every*
adapter task errored and the merged list is empty. -/
def c1SpecSuccess (scrapers : List (String × AdapterOutcome)) : Bool :=
  !((scrapers.all fun s => (outcomeError s.1 s.2).isSome) &&
    (searchHotels scrapers).hotels.isEmpty)

/-- **C1 counterexample.** One adapter raises, the other succeeds with zero
results: the code sets `success = False` (some error and zero merged
results), whereas the claim's rule — false only when *every* adapter
errored — demands `success = True`. -/
theorem c1_counterexample :
    (searchHotels [("booking", .err "boom"), ("priceline", .ok [])]).success
        = false ∧
    c1SpecSuccess [("booking", .err "boom"), ("priceline", .ok [])] = true := by
  constructor <;> rfl

/-- **C1 (amended).** The response's success flag is true unless *at least
one* adapter task recorded an error and the merged result list is empty
(equivalently: success ⟺ no adapter errored ∨ the merged list is
nonempty); `error_message` is the semicolon-joined list of all
`platform: message` strings, present exactly when at least one adapter
errored. -/
theorem c1_success_and_error_message (scrapers : List (String × AdapterOutcome)) :
    ((searchHotels scrapers).success = true ↔
      (∀ s ∈ scrapers, ∀ m, s.2 ≠ .err m) ∨ (searchHotels scrapers).hotels ≠ []) ∧
    ((searchHotels scrapers).error_message = none ↔
      ∀ s ∈ scrapers, ∀ m, s.2 ≠ .err m) ∧
    ((searchHotels scrapers).error_message =
      if batchErrors scrapers = [] then none
      else some (String.intercalate "; " (batchErrors scrapers))) := by
  have hsucc : (searchHotels scrapers).success =
      ((batchErrors scrapers).isEmpty
        || !((scrapers.map fun s => outcomeResults s.2).flatten).isEmpty) := rfl
  have hmsg : (searchHotels scrapers).error_message =
      (if (batchErrors scrapers).isEmpty then none
       else some (String.intercalate "; " (batchErrors scrapers))) := rfl
  have hhot : (searchHotels scrapers).hotels =
      ((scrapers.map fun s => outcomeResults s.2).flatten).insertionSort priceLe := rfl
  refine ⟨?_, ?_, ?_⟩
  · rw [hsucc, hhot, Bool.or_eq_true, List.isEmpty_iff, Bool.not_eq_true',
      List.isEmpty_eq_false_iff_exists_mem, batchErrors_eq_nil_iff]
    constructor
    · rintro (h | ⟨x, hx⟩)
      · exact Or.inl h
      · refine Or.inr ?_
        intro hnil
        rw [insertionSort_eq_nil_iff] at hnil
        rw [hnil] at hx
        exact absurd hx (List.not_mem_nil x)
    · rintro (h | h)
      · exact Or.inl h
      · refine Or.inr (List.exists_mem_of_ne_nil _ ?_)
        intro hnil
        exact h (by rw [hnil]; rfl)
  · rw [hmsg, ← batchErrors_eq_nil_iff]
    by_cases h : batchErrors scrapers = []
    · simp [h]
    · simp [h, List.isEmpty_iff]
  · rw [hmsg]
    by_cases h : batchErrors scrapers = []
    · simp [h]
    · simp [h, List.isEmpty_iff]

/-- Sort key as claim C2's words state it: the sentinel replaces only an
*absent* price. -/
def specSortKey (h : HotelResult) : Bool × ℚ :=
  (h.price.isNone, h.price.getD 999999)

/-- Comparison induced by C2's stated key pair. -/
def specPriceLe (a b : HotelResult) : Prop :=
  keyLe (specSortKey a) (specSortKey b)

instance (a b : HotelResult) : Decidable (specPriceLe a b) := by
  unfold specPriceLe; infer_instance

/-- A zero-priced hotel: a valid `HotelResult` (the schema puts no lower
bound on `price`), producible e.g. from a provider item whose
`min_total_price` is the JSON string `"0"`. -/
def hotelZero : HotelResult :=
  { platform := "booking", hotel_id := "z", name := "Zero", price := some 0 }

def hotelFive : HotelResult :=
  { platform := "booking", hotel_id := "f", name := "Five", price := some 5 }

/-- **C2 counterexample.** `x.price or Decimal("999999")` treats a *zero*
price as falsy, so a zero-priced hotel gets the sentinel key and is sorted
*after* a 5-priced one — the merged list is not ascending by price, and it
differs from the stable sort under the claim's stated key pair
`(price-is-absent, price-or-sentinel)`. -/
theorem c2_counterexample :
    (searchHotels [("booking", .ok [hotelZero, hotelFive])]).hotels =
      [hotelFive, hotelZero] ∧
    hotelZero.price = some 0 ∧ hotelFive.price = some 5 ∧
    List.insertionSort specPriceLe [hotelZero, hotelFive] =
      [hotelZero, hotelFive] := by
  refine ⟨by decide, rfl, rfl, by decide⟩

/-- **C2 (amended).** The merged hotel list is the concatenation of the
adapters' result lists in dispatch order, stably sorted ascending by the
key pair `(price-is-absent, price-if-present-and-nonzero-else-sentinel)`:
Python's `or` sends a zero price to the sentinel 999999 as well, so
zero-priced records sort as if priced at the sentinel; records with an
absent price are still ordered after all records with a price.  Stated as:
the output is a permutation of the concatenation, sorted by the code's key
comparison, records with equal keys keep their concatenation order, and
every absent-price record is followed only by absent-price records. -/
theorem c2_merge_sort (scrapers : List (String × AdapterOutcome)) :
    ((searchHotels scrapers).hotels).Perm
        ((scrapers.map fun s => outcomeResults s.2).flatten) ∧
    ((searchHotels scrapers).hotels).Sorted priceLe ∧
    (∀ a b : HotelResult, sortKey a = sortKey b →
      List.Sublist [a, b] ((scrapers.map fun s => outcomeResults s.2).flatten) →
      List.Sublist [a, b] ((searchHotels scrapers).hotels)) ∧
    (∀ i j : Fin ((searchHotels scrapers).hotels).length, i ≤ j →
      (((searchHotels scrapers).hotels).get i).price = none →
      (((searchHotels scrapers).hotels).get j).price = none) := by
  have hhot : (searchHotels scrapers).hotels =
      ((scrapers.map fun s => outcomeResults s.2).flatten).insertionSort priceLe :=
    rfl
  refine ⟨?_, ?_, ?_, ?_⟩
  · rw [hhot]; exact List.perm_insertionSort priceLe _
  · rw [hhot]; exact List.sorted_insertionSort priceLe _
  · intro a b hk hsub
    rw [hhot]
    refine List.pair_sublist_insertionSort ?_ hsub
    exact Or.inr ⟨congrArg Prod.fst hk, le_of_eq (congrArg Prod.snd hk)⟩
  · intro i j hij hpi
    have hs : ((searchHotels scrapers).hotels).Sorted priceLe := by
      rw [hhot]; exact List.sorted_insertionSort priceLe _
    have hr := hs.rel_get_of_le hij
    simp only [priceLe, keyLe, sortKey, hpi, Option.isNone_none] at hr
    rcases hr with ⟨h1, _⟩ | ⟨h1, _⟩
    · exact absurd h1 (by simp)
    · exact Option.isNone_iff_eq_none.mp h1.symm

def hotelNoPriceA : HotelResult :=
  { platform := "booking", hotel_id := "na", name := "NoPriceA", price := none }

def hotelNoPriceB : HotelResult :=
  { platform := "booking", hotel_id := "nb", name := "NoPriceB", price := none }

def c2WitnessInput : List (String × AdapterOutcome) :=
  [("booking", .ok [hotelNoPriceA, hotelFive, hotelNoPriceB])]

/-- Witness for `c2_merge_sort` at a concrete batch. -/
theorem c2_merge_sort_witness :
    ((searchHotels c2WitnessInput).hotels).Perm
        [hotelNoPriceA, hotelFive, hotelNoPriceB] ∧
    List.Sublist [hotelNoPriceA, hotelNoPriceB]
        ((searchHotels c2WitnessInput).hotels) ∧
    (((searchHotels c2WitnessInput).hotels).get ⟨2, by decide⟩).price = none := by
  have h := c2_merge_sort c2WitnessInput
  refine ⟨?_, ?_, ?_⟩
  · simpa using h.1
  · exact h.2.2.1 hotelNoPriceA hotelNoPriceB (by decide) (by decide)
  · exact h.2.2.2 ⟨1, by decide⟩ ⟨2, by decide⟩ (by decide) (by decide)

/-- Python string slicing `s[:n]` (the first `n` characters). -/
def strTake (s : String) (n : Nat) : String := String.mk (s.data.take n)

/-- Python `str.lower()`, character by character (ASCII-agreeing with
`String.toLower`, but structurally recursive so that concrete instances
reduce). -/
def pyLower (s : String) : String := String.mk (s.data.map Char.toLower)

/-- The sixteen lowercase hex digits, the alphabet of `hexdigest()`. -/
def hexDigits : List Char := "0123456789abcdef".data

/-- `CacheService._make_key` (`cache.py` lines 52–59).  `hexdigest` stands
for `hashlib.md5(·.encode()).hexdigest()` — a deterministic library
function, passed in as a parameter.  Note that the length test is applied
to `key_data`, the `":".join` of the *arguments only*, not to the returned
key (which also carries the `prefix` domain in front). -/
def makeKey (hexdigest : String → String) (domain : String)
    (args : List String) : String :=
  let key_data := String.intercalate ":" args
  if key_data.length > 100 then
    domain ++ ":" ++ strTake (hexdigest key_data) 16
  else
    domain ++ ":" ++ key_data

/-- Key construction of `CacheService.get_destination` / `set_destination`
(`cache.py` lines 104–112): `self._make_key("dest", platform, city.lower())`. -/
def destinationKey (hexdigest : String → String) (platform city : String) :
    String :=
  makeKey hexdigest "dest" [platform, pyLower city]

/-- Claim C3 as stated, for a fixed digest function: whenever the *composed*
key `"<domain>:<platform>:<lowercased-city>"` exceeds 100 characters, the
produced key is the domain followed by a 16-character digest of the
composed key. -/
def c3Claim (hexdigest : String → String) : Prop :=
  ∀ platform city : String,
    ("dest:" ++ platform ++ ":" ++ pyLower city).length > 100 →
      destinationKey hexdigest platform city =
        "dest:" ++
          strTake (hexdigest ("dest:" ++ platform ++ ":" ++ pyLower city)) 16

/-- A digest stand-in with the md5 hexdigest's output format
(32 lowercase hex characters). -/
def hexStub : String → String := fun _ => "0123456789abcdef0123456789abcdef"

/-- **C3 counterexample.** With platform `"p"` and a 98-character city, the
composed key `"dest:p:<city>"` is 105 characters long — over the claimed
100-character limit — yet `_make_key` does not hash, because it measures
only `"p:<city>"` (100 characters): the produced key is the unhashed
105-character string. -/
theorem c3_counterexample : ¬ c3Claim hexStub := by
  intro h
  have hc := h "p" (String.mk (List.replicate 98 'a')) (by decide)
  exact absurd hc (by decide)

/-- **C3 (amended).** The cache key is
`"<domain>:<platform>:<lowercased-city>[:<extra-args>]"`; whenever the part
*after the domain* — `":".join(platform, lowercased-city, extra)` — exceeds
100 characters, the key is replaced by `"<domain>:<hash16>"`, where
`hash16` is the first 16 characters of the hex digest of that part (so 16
hex characters, deterministic in the input); identical inputs, including
the same city under any letter casing, always produce the identical key. -/
theorem c3_key_construction (hexdigest : String → String)
    (hhex : ∀ s, (hexdigest s).data.length = 32 ∧
      ∀ c ∈ (hexdigest s).data, c ∈ hexDigits)
    (domain platform city city' : String) (extra : List String)
    (hcase : pyLower city' = pyLower city) :
    (makeKey hexdigest domain (platform :: pyLower city' :: extra) =
      makeKey hexdigest domain (platform :: pyLower city :: extra)) ∧
    ((String.intercalate ":" (platform :: pyLower city :: extra)).length ≤ 100 →
      makeKey hexdigest domain (platform :: pyLower city :: extra) =
        domain ++ ":" ++
          String.intercalate ":" (platform :: pyLower city :: extra)) ∧
    ((String.intercalate ":" (platform :: pyLower city :: extra)).length > 100 →
      makeKey hexdigest domain (platform :: pyLower city :: extra) =
        domain ++ ":" ++
          strTake
            (hexdigest (String.intercalate ":" (platform :: pyLower city :: extra)))
            16 ∧
      (strTake
          (hexdigest (String.intercalate ":" (platform :: pyLower city :: extra)))
          16).data.length = 16 ∧
      ∀ c ∈ (strTake
          (hexdigest (String.intercalate ":" (platform :: pyLower city :: extra)))
          16).data, c ∈ hexDigits) := by
  refine ⟨by rw [hcase], ?_, ?_⟩
  · intro hle
    rw [makeKey, if_neg (by omega)]
  · intro hgt
    refine ⟨by rw [makeKey, if_pos hgt], ?_, ?_⟩
    · show ((hexdigest _).data.take 16).length = 16
      rw [List.length_take, (hhex _).1]
      decide
    · intro c hc
      exact (hhex _).2 c (List.take_subset 16 _ hc)

/-- One registered adapter, tagged with whether its `close()` raises. -/
structure RegisteredAdapter where
  platform : String
  closeFails : Bool
  deriving DecidableEq, Repr

/-- `ScraperRegistry.close_all` (`registry.py` lines 47–50): `await
scraper.close()` for each registered scraper in order, with *no* exception
handling, so a raised close aborts the loop.  Returns the platforms whose
`close()` was invoked together with the propagated error, if any. -/
def closeAll : List RegisteredAdapter → List String × Option String
  | [] => ([], none)
  | a :: rest =>
    if a.closeFails then ([a.platform], some a.platform)
    else
      let r := closeAll rest
      (a.platform :: r.1, r.2)

/-- **C5 counterexample.** Two registered adapters, the first one's
`close()` raises: only the first adapter's close is invoked — the adapter
registered after it is never closed, contradicting the claimed
best-effort continuation. -/
theorem c5_counterexample :
    closeAll [⟨"booking", true⟩, ⟨"hotels_com", false⟩] =
      (["booking"], some "booking") ∧
    ["booking"] ≠
      ([⟨"booking", true⟩, ⟨"hotels_com", false⟩] :
        List RegisteredAdapter).map RegisteredAdapter.platform := by
  exact ⟨rfl, by decide⟩

/-- **C5 (amended).** `close_all` releases adapters in registration order
but is fail-fast, not best-effort: when every close succeeds, every
adapter is closed and nothing propagates; when some close fails, exactly
the adapters up to and including the *first* failing one have their close
invoked, that failure propagates, and no adapter registered after it is
closed. -/
theorem c5_close_all (l : List RegisteredAdapter) :
    ((∀ a ∈ l, a.closeFails = false) →
      closeAll l = (l.map RegisteredAdapter.platform, none)) ∧
    (∀ a rest, l.dropWhile (fun x => !x.closeFails) = a :: rest →
      closeAll l =
        ((l.takeWhile (fun x => !x.closeFails)).map RegisteredAdapter.platform
            ++ [a.platform],
          some a.platform)) := by
  induction l with
  | nil =>
    exact ⟨fun _ => rfl, fun a rest h => by simp [List.dropWhile] at h⟩
  | cons x xs ih =>
    constructor
    · intro h
      have hx : x.closeFails = false := h x (List.mem_cons_self x xs)
      have ih1 := ih.1 fun a ha => h a (List.mem_cons_of_mem x ha)
      simp [closeAll, hx, ih1]
    · intro a rest hdrop
      by_cases hx : x.closeFails
      · rw [List.dropWhile_cons] at hdrop
        simp only [hx, Bool.not_true, Bool.false_eq_true, if_false] at hdrop
        injection hdrop with h1 h2
        subst h1
        simp [closeAll, hx, List.takeWhile_cons]
      · rw [List.dropWhile_cons] at hdrop
        simp only [hx, Bool.not_false, if_true] at hdrop
        have hrec := ih.2 a rest hdrop
        simp [closeAll, hx, hrec, List.takeWhile_cons]

/-- Witness for `c3_key_construction` at concrete inputs: case-varied cities
agree, a short key is kept verbatim, and a long key collapses to the
16-character digest prefix. -/
theorem c3_key_construction_witness :
    makeKey hexStub "dest" ["booking", pyLower "PARIS"] =
      makeKey hexStub "dest" ["booking", pyLower "Paris"] ∧
    makeKey hexStub "dest" ["booking", pyLower "Paris"] = "dest:booking:paris" ∧
    makeKey hexStub "dest" ["p", pyLower (String.mk (List.replicate 101 'a'))] =
      "dest:0123456789abcdef" := by
  have hh : ∀ s, (hexStub s).data.length = 32 ∧
      ∀ c ∈ (hexStub s).data, c ∈ hexDigits := by
    intro s
    refine ⟨?_, ?_⟩
    · show ("0123456789abcdef0123456789abcdef" : String).data.length = 32
      decide
    · show ∀ c ∈ ("0123456789abcdef0123456789abcdef" : String).data,
        c ∈ hexDigits
      decide
  have h₁ := c3_key_construction hexStub hh "dest" "booking" "Paris" "PARIS" []
    (by decide)
  have h₂ := c3_key_construction hexStub hh "dest" "p"
    (String.mk (List.replicate 101 'a')) (String.mk (List.replicate 101 'a')) []
    rfl
  exact ⟨h₁.1, (h₁.2.1 (by decide)).trans (by decide),
    ((h₂.2.2 (by decide)).1).trans (by decide)⟩

/-- Witness for `c5_close_all` at concrete registries: an all-succeeding
registry closes everything; a middle failure stops the loop there. -/
theorem c5_close_all_witness :
    closeAll [⟨"booking", false⟩, ⟨"hotels_com", false⟩] =
      (["booking", "hotels_com"], none) ∧
    closeAll
        [⟨"booking", false⟩, ⟨"hotels_com", true⟩, ⟨"priceline", false⟩] =
      (["booking", "hotels_com"], some "hotels_com") := by
  have h₁ := c5_close_all [⟨"booking", false⟩, ⟨"hotels_com", false⟩]
  have h₂ := c5_close_all
    [⟨"booking", false⟩, ⟨"hotels_com", true⟩, ⟨"priceline", false⟩]
  refine ⟨h₁.1 (by decide), ?_⟩
  have hmid := h₂.2 ⟨"hotels_com", true⟩ [⟨"priceline", false⟩] (by decide)
  exact hmid.trans (by decide)

/-- One record of the provider's `/v1/hotels/locations` JSON array,
restricted to the two keys `_search_destination` reads; `none` models an
absent key. -/
structure DestRecord where
  dest_id : Option String
  dest_type : Option String
  deriving DecidableEq, Repr

/-- Outcome of the provider location-lookup request: `failure` models any
raised request error or non-2xx status (the `except` path), `success` a
parsed JSON array. -/
inductive LocationsResponse where
  | failure
  | success (records : List DestRecord)
  deriving DecidableEq, Repr

/-- A cached destination value together with the TTL it was written with. -/
structure CacheEntry where
  dest_id : Option String
  dest_type : Option String
  ttl : Nat
  deriving DecidableEq, Repr

/-- Cache contents, newest write first (`setex` overwrites shadowed keys). -/
abbrev CacheState := List (String × CacheEntry)

def lookupCache : CacheState → String → Option CacheEntry
  | [], _ => none
  | (k', v) :: rest, k => if k' = k then some v else lookupCache rest k

def setCache (c : CacheState) (k : String) (v : CacheEntry) : CacheState :=
  (k, v) :: c

/-- `settings.cache_destination_ttl` (`config.py` line 25): 24 hours. -/
def cacheDestinationTtl : Nat := 86400

/-- Result of one `_search_destination` call: the returned
`(dest_id, dest_type)` pair, the cache afterwards, and how many provider
location-lookup requests were issued. -/
structure DestLookup where
  dest_id : Option String
  dest_type : Option String
  cache : CacheState
  providerCalls : Nat
  deriving DecidableEq, Repr

/-- `BookingApiScraper._search_destination` (`booking_api.py` lines 33–71)
together with `CacheService.get_destination` / `set_destination`
(`cache.py` lines 104–112).  The provider response is an explicit input.
On a cache hit the cached pair is returned with no provider call; on a
miss, a successful nonempty response yields the *first* record, written
back under the destination TTL; an empty response or a request failure
yields `(None, None)` with no write — the function never raises. -/
def searchDestination (hexdigest : String → String) (cache : CacheState)
    (resp : LocationsResponse) (city : String) : DestLookup :=
  match lookupCache cache (destinationKey hexdigest "booking" city) with
  | some e => ⟨e.dest_id, e.dest_type, cache, 0⟩
  | none =>
    match resp with
    | .failure => ⟨none, none, cache, 1⟩
    | .success [] => ⟨none, none, cache, 1⟩
    | .success (r :: _) =>
      let dest_type := r.dest_type.getD "city"
      ⟨r.dest_id, some dest_type,
        setCache cache (destinationKey hexdigest "booking" city)
          ⟨r.dest_id, some dest_type, cacheDestinationTtl⟩, 1⟩

/-- **C6 (confirmed).** On a cache miss, `resolve_destination` issues one
provider lookup, extracts the first destination record, and writes it back
under the destination TTL; it returns absent on failure or no match
without writing; and a second call with a case-varied city hits the cache:
same value, zero provider calls, cache unchanged. -/
theorem c6_resolve_destination (hexdigest : String → String)
    (cache : CacheState) (city city' : String)
    (r : DestRecord) (rs : List DestRecord)
    (hmiss : lookupCache cache (destinationKey hexdigest "booking" city) = none)
    (hcase : pyLower city' = pyLower city) :
    (searchDestination hexdigest cache (.success (r :: rs)) city).providerCalls
        = 1 ∧
    (searchDestination hexdigest cache (.success (r :: rs)) city).dest_id
        = r.dest_id ∧
    (searchDestination hexdigest cache (.success (r :: rs)) city).dest_type
        = some (r.dest_type.getD "city") ∧
    lookupCache (searchDestination hexdigest cache (.success (r :: rs)) city).cache
        (destinationKey hexdigest "booking" city) =
      some ⟨r.dest_id, some (r.dest_type.getD "city"), cacheDestinationTtl⟩ ∧
    (∀ resp₂ : LocationsResponse,
      searchDestination hexdigest
          (searchDestination hexdigest cache (.success (r :: rs)) city).cache
          resp₂ city' =
        ⟨r.dest_id, some (r.dest_type.getD "city"),
          (searchDestination hexdigest cache (.success (r :: rs)) city).cache,
          0⟩) ∧
    searchDestination hexdigest cache .failure city = ⟨none, none, cache, 1⟩ ∧
    searchDestination hexdigest cache (.success []) city =
      ⟨none, none, cache, 1⟩ := by
  have hkey : destinationKey hexdigest "booking" city' =
      destinationKey hexdigest "booking" city := by
    rw [destinationKey, destinationKey, hcase]
  refine ⟨?_, ?_, ?_, ?_, ?_, ?_, ?_⟩
  · simp [searchDestination, hmiss]
  · simp [searchDestination, hmiss]
  · simp [searchDestination, hmiss]
  · simp [searchDestination, hmiss, setCache, lookupCache]
  · intro resp₂
    have hcache :
        (searchDestination hexdigest cache (.success (r :: rs)) city).cache =
          setCache cache (destinationKey hexdigest "booking" city)
            ⟨r.dest_id, some (r.dest_type.getD "city"), cacheDestinationTtl⟩ := by
      simp [searchDestination, hmiss]
    rw [hcache, searchDestination.eq_def, hkey]
    simp [setCache, lookupCache]
  · simp [searchDestination, hmiss]
  · simp [searchDestination, hmiss]

/-- Witness for `c6_resolve_destination`: empty cache, a concrete Booking
record for `"Paris"`, then a second call with `"PARIS"`. -/
theorem c6_resolve_destination_witness :
    (searchDestination hexStub [] (.success [⟨some "123", some "city"⟩])
        "Paris").providerCalls = 1 ∧
    searchDestination hexStub
        (searchDestination hexStub [] (.success [⟨some "123", some "city"⟩])
          "Paris").cache
        .failure "PARIS" =
      ⟨some "123", some "city",
        (searchDestination hexStub [] (.success [⟨some "123", some "city"⟩])
          "Paris").cache, 0⟩ := by
  have h := c6_resolve_destination hexStub [] "Paris" "PARIS"
    ⟨some "123", some "city"⟩ [] rfl (by decide)
  exact ⟨h.1, h.2.2.2.2.1 .failure⟩

/-- Integer floor of a rational, structurally (`num.fdiv den`), so that
concrete instances reduce in the kernel. -/
def ratFloor (q : ℚ) : ℤ := q.num.fdiv q.den

/-- Python `round(x, 1)` on an exact rational value: nearest multiple of
1/10, ties to even (banker's rounding). -/
def roundHalfEven (q : ℚ) : ℤ :=
  let f := ratFloor q
  if q - f < 1/2 then f
  else if q - f > 1/2 then f + 1
  else if f % 2 = 0 then f else f + 1

/-- `round(·, 1)`. -/
def round1 (q : ℚ) : ℚ := (roundHalfEven (10 * q) : ℚ) / 10

/-- `BaseScraper._normalize_rating` (`base.py` lines 99–106), over exact
rationals: `None` maps to `None`, otherwise
`Decimal(str(round((rating / max_rating) * 5.0, 1)))`. -/
def normalizeRating (rating : Option ℚ) (max_rating : ℚ) : Option ℚ :=
  match rating with
  | none => none
  | some r => some (round1 (r / max_rating * 5))

unseal Rat.mul Rat.inv Rat.add Rat.sub in
/-- **C7 (confirmed).** For every raw rating and scale `S`, the normalized
rating is `round(raw * 5 / S, 1)` (the code computes `raw / S * 5`, equal
over exact arithmetic); `normalize(8, 10) = 4`, `normalize(0, 10) = 0`,
and an absent raw rating normalizes to an absent rating. -/
theorem c7_normalize_rating :
    (∀ r S : ℚ, normalizeRating (some r) S = some (round1 (r * 5 / S))) ∧
    (∀ S : ℚ, normalizeRating none S = none) ∧
    normalizeRating (some 8) 10 = some 4 ∧
    normalizeRating (some 0) 10 = some 0 := by
  refine ⟨?_, fun _ => rfl, by decide, by decide⟩
  intro r S
  show some (round1 (r / S * 5)) = some (round1 (r * 5 / S))
  have h : r / S * 5 = r * 5 / S := by ring
  rw [h]

/-- Scraper selection in `search_hotels` (`main.py` lines 72–85).  The
registry is the list of registered platform names in registration order;
`scraper_registry.get(p)` succeeds exactly for registered names.
`if request.platforms:` is Python truthiness, so `None` *and* the empty
list both take the `else` branch selecting every registered scraper; an
empty filtered list raises HTTP 400 before any dispatch. -/
def selectScrapers (platforms : Option (List String))
    (registry : List String) : Except String (List String) :=
  match platforms with
  | some ps =>
    if ps.isEmpty then .ok registry
    else
      let scrapers := ps.filter fun p => registry.contains p
      if scrapers.isEmpty then .error "No valid platforms specified"
      else .ok scrapers
  | none => .ok registry

/-- Claim C8 as stated: an explicit platform list is filtered to the
registered names, and the request is rejected whenever that filter removes
every entry. -/
def c8Claim : Prop :=
  ∀ ps registry : List String,
    (∀ dispatched, selectScrapers (some ps) registry = .ok dispatched →
      dispatched = ps.filter fun p => registry.contains p) ∧
    ((ps.filter fun p => registry.contains p) = [] →
      ∃ msg, selectScrapers (some ps) registry = .error msg)

/-- **C8 counterexample.** An explicitly *empty* platform list is falsy in
Python, so the code dispatches to every registered platform instead of
rejecting the request (the filtered set is empty, so the claim demands
rejection before dispatch). -/
theorem c8_counterexample : ¬ c8Claim := by
  intro h
  rcases (h [] ["booking"]).2 rfl with ⟨msg, hmsg⟩
  exact absurd hmsg (by simp [selectScrapers])

/-- **C8 (amended).** A *nonempty* explicit platform list dispatches exactly
the requested names known to the registry (unknown names silently dropped,
requested order and multiplicity kept), and the request is rejected before
any dispatch iff that filter removes every entry; an absent *or
explicitly empty* platform list dispatches every registered platform. -/
theorem c8_platform_selection (ps registry : List String) :
    selectScrapers none registry = .ok registry ∧
    selectScrapers (some []) registry = .ok registry ∧
    (ps ≠ [] →
      ((ps.filter fun p => registry.contains p) ≠ [] →
        selectScrapers (some ps) registry =
          .ok (ps.filter fun p => registry.contains p)) ∧
      ((ps.filter fun p => registry.contains p) = [] →
        selectScrapers (some ps) registry =
          .error "No valid platforms specified")) := by
  refine ⟨rfl, rfl, fun hps => ⟨?_, ?_⟩⟩
  · intro hne
    simp only [selectScrapers]
    rw [if_neg (fun hcon => hps (List.isEmpty_iff.mp hcon)),
      if_neg (fun hcon => hne (List.isEmpty_iff.mp hcon))]
  · intro heq
    simp only [selectScrapers]
    rw [if_neg (fun hcon => hps (List.isEmpty_iff.mp hcon)),
      if_pos (List.isEmpty_iff.mpr heq)]

/-- Witness for `c8_platform_selection`: a three-platform registry with a
mixed valid/invalid request, and an all-invalid request. -/
theorem c8_platform_selection_witness :
    selectScrapers none ["booking", "hotels_com", "priceline"] =
      .ok ["booking", "hotels_com", "priceline"] ∧
    selectScrapers (some ["booking", "bogus"])
        ["booking", "hotels_com", "priceline"] = .ok ["booking"] ∧
    selectScrapers (some ["bogus"]) ["booking", "hotels_com", "priceline"] =
      .error "No valid platforms specified" := by
  have h₁ := c8_platform_selection ["booking", "bogus"]
    ["booking", "hotels_com", "priceline"]
  have h₂ := c8_platform_selection ["bogus"]
    ["booking", "hotels_com", "priceline"]
  refine ⟨h₁.1, ?_, ?_⟩
  · exact ((h₁.2.2 (by decide)).1 (by decide)).trans rfl
  · exact (h₂.2.2 (by decide)).2 (by decide)

/-- A candidate inbound search request body (`schemas.py` `SearchRequest`),
dates as integer day ordinals. -/
structure SearchRequestInput where
  city : String
  check_in : Int
  check_out : Int
  guests : Int := 2
  hotel_name : Option String := none
  max_price : Option ℚ := none
  min_rating : Option ℚ := none
  free_cancellation : Bool := false
  platforms : Option (List String) := none
  deriving DecidableEq, Repr

/-- Pydantic validation of `SearchRequest` (`schemas.py` lines 8–29): the
only value constraints are `guests: ge=1, le=10` and, when present,
`min_rating: ge=0, le=5`; no validator relates `check_in` and
`check_out`. -/
def searchRequestAccepted (r : SearchRequestInput) : Bool :=
  decide (1 ≤ r.guests) && decide (r.guests ≤ 10) &&
    (match r.min_rating with
     | none => true
     | some m => decide ((0 : ℚ) ≤ m) && decide (m ≤ 5))

def c9Request : SearchRequestInput :=
  { city := "paris", check_in := 739000, check_out := 739000 }

/-- **C9 counterexample.** A request whose `check_out` equals its `check_in`
passes validation: no `check_out > check_in` invariant is enforced
anywhere in the schema. -/
theorem c9_counterexample :
    searchRequestAccepted c9Request = true ∧
    ¬ c9Request.check_out > c9Request.check_in := by
  exact ⟨by decide, by decide⟩

/-- **C9 (amended).** Validation of an inbound search request checks only
`1 ≤ guests ≤ 10` and, when present, `0 ≤ min_rating ≤ 5`; it is
independent of the date fields, so a request whose `check_out` is not
strictly after its `check_in` is accepted. -/
theorem c9_validation (r : SearchRequestInput) (ci co : Int) :
    searchRequestAccepted { r with check_in := ci, check_out := co } =
      searchRequestAccepted r ∧
    (searchRequestAccepted r = true ↔
      1 ≤ r.guests ∧ r.guests ≤ 10 ∧
        ∀ m, r.min_rating = some m → 0 ≤ m ∧ m ≤ 5) := by
  refine ⟨rfl, ?_⟩
  rw [searchRequestAccepted]
  cases hm : r.min_rating with
  | none => simp
  | some m => simp [hm, and_assoc]

/-- Witness for `c9_validation` at a concrete request. -/
theorem c9_validation_witness :
    searchRequestAccepted { c9Request with check_in := 0, check_out := 0 } =
      searchRequestAccepted c9Request := by
  exact (c9_validation c9Request 0 0).1

/-- The four filter options passed to an adapter `search` call. -/
structure SearchFilters where
  hotel_name : Option String := none
  max_price : Option ℚ := none
  min_rating : Option ℚ := none
  free_cancellation : Bool := false
  deriving DecidableEq, Repr

/-- Python truthiness of an optional `Decimal`: present and nonzero
(`Decimal("0")` is falsy). -/
def truthyQ : Option ℚ → Bool
  | none => false
  | some q => decide (q ≠ 0)

/-- Python's `needle in hay` on strings (substring containment). -/
def containsSub (hay needle : String) : Bool :=
  go needle.data hay.data
where
  go (needle : List Char) : List Char → Bool
    | [] => needle.isEmpty
    | c :: rest => needle.isPrefixOf (c :: rest) || go needle rest

/-- `if max_price and result.price and result.price > max_price: continue`
(`booking_api.py` line 127; identical in `hotels_api.py` line 162 and
`priceline_api.py` line 167). -/
def excludedByMaxPrice (f : SearchFilters) (r : HotelResult) : Bool :=
  truthyQ f.max_price && truthyQ r.price &&
    decide (r.price.getD 0 > f.max_price.getD 0)

/-- `if min_rating and result.rating and result.rating < min_rating:
continue` (`booking_api.py` line 129; identical in `hotels_api.py` line
164 and `priceline_api.py` line 169). -/
def excludedByMinRating (f : SearchFilters) (r : HotelResult) : Bool :=
  truthyQ f.min_rating && truthyQ r.rating &&
    decide (r.rating.getD 0 < f.min_rating.getD 0)

/-- `if free_cancellation and not self._has_free_cancellation(hotel):
continue`; `hasFreeCancel` is `_has_free_cancellation` evaluated on the
raw provider item. -/
def excludedByFreeCancellation (f : SearchFilters) (hasFreeCancel : Bool) :
    Bool :=
  f.free_cancellation && !hasFreeCancel

/-- `if hotel_name and hotel_name.lower() not in result.name.lower():
continue`. -/
def excludedByHotelName (f : SearchFilters) (r : HotelResult) : Bool :=
  match f.hotel_name with
  | none => false
  | some n => decide (n ≠ "") && !containsSub (pyLower r.name) (pyLower n)

/-- The per-item filter chain of the adapter search loops: a parsed result
is appended iff no filter fires, tested in the fixed order max_price,
min_rating, free_cancellation, name substring. -/
def keepResult (f : SearchFilters) (r : HotelResult) (hasFreeCancel : Bool) :
    Bool :=
  !excludedByMaxPrice f r && !excludedByMinRating f r &&
    !excludedByFreeCancellation f hasFreeCancel && !excludedByHotelName f r

/-- The filtered result list an adapter search returns, given its parsed
items each paired with the raw item's free-cancellation flag. -/
def filterResults (f : SearchFilters) (items : List (HotelResult × Bool)) :
    List HotelResult :=
  (items.filter fun it => keepResult f it.1 it.2).map Prod.fst

/-- **C10 (confirmed).** With a `min_rating` filter specified, the rating
test never fires for a result whose rating is absent, and such a result is
retained in the returned list when no other filter is specified; whenever
the rating test does exclude a result, that result's rating is present and
strictly below the threshold. -/
theorem c10_min_rating_keeps_unrated (f : SearchFilters) (m : ℚ)
    (r : HotelResult) (items : List (HotelResult × Bool)) (b : Bool)
    (hm : f.min_rating = some m) :
    (r.rating = none → excludedByMinRating f r = false) ∧
    (excludedByMinRating f r = true → ∃ v, r.rating = some v ∧ v < m) ∧
    (r.rating = none → (r, b) ∈ items →
      r ∈ filterResults { min_rating := some m } items) := by
  refine ⟨?_, ?_, ?_⟩
  · intro hr
    simp [excludedByMinRating, truthyQ, hr]
  · intro hex
    cases hv : r.rating with
    | none =>
      rw [excludedByMinRating, hv] at hex
      simp [truthyQ] at hex
    | some v =>
      refine ⟨v, rfl, ?_⟩
      rw [excludedByMinRating, hm, hv] at hex
      simp only [truthyQ, Bool.and_eq_true, decide_eq_true_eq,
        Option.getD_some] at hex
      exact hex.2
  · intro hr hmem
    rw [filterResults]
    refine List.mem_map.mpr ⟨(r, b), List.mem_filter.mpr ⟨hmem, ?_⟩, rfl⟩
    simp [keepResult, excludedByMaxPrice, excludedByMinRating,
      excludedByFreeCancellation, excludedByHotelName, truthyQ, hr]

/-- An unrated, priced hotel, for the C10 witness. -/
def unratedHotel : HotelResult :=
  { platform := "booking", hotel_id := "u1", name := "Unrated Inn",
    price := some 80 }

/-- Witness for `c10_min_rating_keeps_unrated`: an unrated hotel under a
`min_rating = 3` filter. -/
theorem c10_min_rating_keeps_unrated_witness :
    excludedByMinRating { min_rating := some 3 } unratedHotel = false ∧
    unratedHotel ∈
      filterResults { min_rating := some 3 } [(unratedHotel, false)] := by
  have h := c10_min_rating_keeps_unrated { min_rating := some 3 } 3
    unratedHotel [(unratedHotel, false)] false rfl
  exact ⟨h.1 rfl, h.2.2 rfl (by simp)⟩

/-- A JSON value, as parsed from a provider response body. -/
inductive Json where
  | null
  | bool (b : Bool)
  | num (q : ℚ)
  | str (s : String)
  | arr (elems : List Json)
  | obj (fields : List (String × Json))

/-- First value bound to key `k`, if any. -/
def lookupField : List (String × Json) → String → Option Json
  | [], _ => none
  | (k', v) :: rest, k => if k' = k then some v else lookupField rest k

/-- Python `x.get(k)` on a JSON value: `None` (`Json.null`) when the key is
absent; the outer `none` models an `AttributeError` on a non-dict
receiver — an exception, caught by the enclosing `try`. -/
def Json.dictGet : Json → String → Option Json
  | .obj fields, k => some ((lookupField fields k).getD .null)
  | _, _ => none

/-- Python `x.get(k, d)` with an explicit default. -/
def Json.dictGetD : Json → String → Json → Option Json
  | .obj fields, k, d => some ((lookupField fields k).getD d)
  | _, _, _ => none

/-- Python truthiness of a JSON value (empty/zero/null values are falsy). -/
def Json.truthy : Json → Bool
  | .null => false
  | .bool b => b
  | .num q => decide (q ≠ 0)
  | .str s => decide (s ≠ "")
  | .arr elems => !elems.isEmpty
  | .obj fields => !fields.isEmpty

/-- Python `a or b`. -/
def Json.pyOr (a b : Json) : Json := if a.truthy then a else b

/-- Python `str(v)`.  The formatting of numbers and containers is
approximate; no theorem below evaluates those cases. -/
def Json.pyStr : Json → String
  | .null => "None"
  | .bool b => if b then "True" else "False"
  | .num q => if q.den = 1 then toString q.num else toString q
  | .str s => s
  | .arr _ => "[...]"
  | .obj _ => "\x7b...\x7d"

/-- Digit run to a natural number (callers check `isDigit` first). -/
def natOfDigits : List Char → Nat → Nat
  | [], acc => acc
  | c :: rest, acc => natOfDigits rest (acc * 10 + (c.toNat - '0'.toNat))

/-- Parse a decimal-literal string — optional sign, digits, optional
fractional part — to an exact rational; `none` models Python rejecting the
literal with an exception. -/
def decimalOfString? (s : String) : Option ℚ :=
  let p : Bool × List Char :=
    match s.data with
    | '-' :: rest => (true, rest)
    | '+' :: rest => (false, rest)
    | cs => (false, cs)
  let intPart := p.2.takeWhile Char.isDigit
  let rest := p.2.dropWhile Char.isDigit
  if intPart.isEmpty then none
  else
    let ip : ℚ := natOfDigits intPart 0
    match rest with
    | [] => some (if p.1 then -ip else ip)
    | '.' :: frac =>
      if frac.isEmpty || !frac.all Char.isDigit then none
      else
        let q : ℚ :=
          ip + (natOfDigits frac 0 : ℚ) / ((10 : ℚ) ^ frac.length)
        some (if p.1 then -q else q)
    | _ => none

/-- Parse an integer-literal string (optional sign, digits only). -/
def intOfString? (s : String) : Option ℤ :=
  let p : Bool × List Char :=
    match s.data with
    | '-' :: rest => (true, rest)
    | '+' :: rest => (false, rest)
    | cs => (false, cs)
  if p.2.isEmpty || !p.2.all Char.isDigit then none
  else
    let n : ℤ := natOfDigits p.2 0
    some (if p.1 then -n else n)

/-- Python `Decimal(str(v))`: exact for JSON numbers and numeric-literal
strings; `none` models the raised `InvalidOperation` on anything else. -/
def Json.pyDecimal? : Json → Option ℚ
  | .num q => some q
  | .str s => decimalOfString? s
  | _ => none

/-- Python `float(v)`. -/
def Json.pyFloat? : Json → Option ℚ
  | .num q => some q
  | .str s => decimalOfString? s
  | .bool b => some (if b then 1 else 0)
  | _ => none

/-- Truncation toward zero (Python `int()` on a number). -/
def ratTrunc (q : ℚ) : ℤ := if 0 ≤ q then ratFloor q else -ratFloor (-q)

/-- Python `int(v)`: truncation for numbers, integer-literal strings only,
booleans to 0/1; `none` models the raised `ValueError`/`TypeError`. -/
def Json.pyInt? : Json → Option ℤ
  | .num q => some (ratTrunc q)
  | .str s => intOfString? s
  | .bool b => some (if b then 1 else 0)
  | _ => none

/-- A pydantic `str`-typed field: the passed value must be a string. -/
def Json.asStr? : Json → Option String
  | .str s => some s
  | _ => none

/-- Python `s.startswith(pre)`. -/
def pyStartsWith (s pre : String) : Bool := pre.data.isPrefixOf s.data

/-- Pydantic construction of `HotelResult` (`schemas.py` lines 32–54):
`price: Decimal = Field(...)` is required and non-nullable, so passing
`price=None` raises `ValidationError` — modelled as `none`; every other
field here is `Optional` or defaulted and accepts `None`. -/
def mkHotelResult (platform hotel_id name : String) (price : Option ℚ)
    (currency : String) (rating : Option ℚ) (review_count : Option ℤ)
    (address : Option String) (city : Option String)
    (cancellation_policy : Option String) (booking_url : Option String)
    (image_url : Option String) : Option HotelResult :=
  match price with
  | none => none
  | some _ =>
    some { platform := platform, hotel_id := hotel_id, name := name,
           price := price, currency := currency, rating := rating,
           review_count := review_count, address := address, city := city,
           cancellation_policy := cancellation_policy,
           booking_url := booking_url, image_url := image_url }

/-- Price extraction of `_parse_hotel` (`booking_api.py` lines 170–181):
`min_total_price or price_breakdown.gross_price` (short-circuit, so the
second dict access only happens — and can only raise — when the first is
falsy), then `composite_price_breakdown.gross_amount_per_night.value` when
the price is still falsy. -/
def bookingPrice? (hotel : Json) : Option (Option ℚ) := do
  let mtp ← hotel.dictGet "min_total_price"
  let price_data ←
    if mtp.truthy then pure mtp
    else do
      let pb ← hotel.dictGetD "price_breakdown" (.obj [])
      pb.dictGet "gross_price"
  let price₁ : Option ℚ ←
    if price_data.truthy then do
      let p ← price_data.pyDecimal?
      pure (some p)
    else pure none
  if truthyQ price₁ then pure price₁
  else do
    let composite ← hotel.dictGetD "composite_price_breakdown" (.obj [])
    let gapn ← composite.dictGetD "gross_amount_per_night" (.obj [])
    let gross ← gapn.dictGet "value"
    if gross.truthy then do
      let p ← gross.pyDecimal?
      pure (some p)
    else pure price₁

/-- Rating extraction (`booking_api.py` lines 183–187): `review_score`,
normalized from the 0–10 scale when truthy. -/
def bookingRating? (hotel : Json) : Option (Option ℚ) := do
  let review_score ← hotel.dictGet "review_score"
  if review_score.truthy then do
    let v ← review_score.pyFloat?
    pure (normalizeRating (some v) 10)
  else pure none

/-- Review-count extraction (`booking_api.py` lines 189–190, 214):
`review_nr or review_count`, converted with `int(·)` when truthy. -/
def bookingReviewCount? (hotel : Json) : Option (Option ℤ) := do
  let review_countJ := (← hotel.dictGet "review_nr").pyOr
    (← hotel.dictGet "review_count")
  if review_countJ.truthy then do
    let n ← review_countJ.pyInt?
    pure (some n)
  else pure none

/-- Booking-url extraction (`booking_api.py` lines 192–193): `url` or the
constructed fallback. -/
def bookingUrl? (hotel : Json) (hotel_id : String) : Option String := do
  let booking_urlJ := (← hotel.dictGet "url").pyOr
    (.str ("https://www.booking.com/hotel/" ++ hotel_id ++ ".html"))
  booking_urlJ.asStr?

/-- Address extraction (`booking_api.py` lines 195–196):
`address or address_trans`. -/
def bookingAddress? (hotel : Json) : Option String := do
  let addressJ := (← hotel.dictGet "address").pyOr
    (← hotel.dictGetD "address_trans" (.str ""))
  addressJ.asStr?

/-- Image extraction (`booking_api.py` lines 198–201, 219):
`main_photo_url or max_photo_url`, scheme-prefixed when not absolute, and
`None` when falsy. -/
def bookingImageUrl? (hotel : Json) : Option (Option String) := do
  let imageJ := (← hotel.dictGet "main_photo_url").pyOr
    (← hotel.dictGetD "max_photo_url" (.str ""))
  if imageJ.truthy then do
    let s ← imageJ.asStr?
    pure (some (if !pyStartsWith s "http" then "https:" ++ s else s))
  else pure none

/-- Cancellation policy (`booking_api.py` lines 203–205):
`"Free cancellation"` iff `is_free_cancellable` is truthy. -/
def bookingCancellationPolicy? (hotel : Json) : Option (Option String) := do
  let cancellation ← hotel.dictGet "is_free_cancellable"
  pure (if cancellation.truthy then some "Free cancellation" else none)

/-- `BookingApiScraper._parse_hotel` (`booking_api.py` lines 155–224), as
the composition of the per-field extractions above, in source order.
Returns `none` exactly when the source returns `None`: for a missing or
empty `hotel_id`/name, and for any exception raised inside the `try` —
including the pydantic `ValidationError` from `HotelResult(price=None, …)`
when every candidate price path is absent. -/
def bookingParseHotel (hotel : Json) (city : String) : Option HotelResult := do
  let hotel_id := (← hotel.dictGetD "hotel_id" (.str "")).pyStr
  let nameJ := (← hotel.dictGetD "hotel_name" (.str "")).pyOr
    (← hotel.dictGetD "name" (.str ""))
  if hotel_id = "" ∨ nameJ.truthy = false then none
  else do
    let price ← bookingPrice? hotel
    let rating ← bookingRating? hotel
    let review_count ← bookingReviewCount? hotel
    let booking_url ← bookingUrl? hotel hotel_id
    let address ← bookingAddress? hotel
    let image_url ← bookingImageUrl? hotel
    let cancellation_policy ← bookingCancellationPolicy? hotel
    let nameStr ← nameJ.asStr?
    let currency ← (← hotel.dictGetD "currency_code" (.str "USD")).asStr?
    mkHotelResult "booking" hotel_id nameStr price currency rating
      review_count (some address) (some city) cancellation_policy
      (some booking_url) image_url

/-- A provider item with the required id and name but *no* price, rating,
or cancellation path at all. -/
def c4MissingPriceItem : Json :=
  .obj [("hotel_id", .str "123"), ("hotel_name", .str "Grand Hotel")]

/-- The same item with one price path present (`min_total_price`). -/
def c4PricedItem : Json :=
  .obj [("hotel_id", .str "123"), ("hotel_name", .str "Grand Hotel"),
        ("min_total_price", .num 120)]

/-- **C4 (code bug).** For the rating and cancellation fields the claim
matches the code: with a price present, absent rating/cancellation paths
yield a `HotelResult` with those fields absent.  For the price it does
not: when every candidate price path is absent the parser passes
`price=None` to a schema whose `price` is a *required* `Decimal`, the
`ValidationError` is swallowed by the `except` clause, and the item is
dropped (`None`) — even though `main.py` line 121 and the adapters' own
`result.price` guards explicitly handle a priceless result. -/
theorem c4_missing_price_drops_item :
    bookingParseHotel c4MissingPriceItem "paris" = none ∧
    bookingParseHotel c4PricedItem "paris" =
      some { platform := "booking", hotel_id := "123", name := "Grand Hotel",
             price := some 120, currency := "USD", rating := none,
             review_count := none, address := some "", city := some "paris",
             cancellation_policy := none,
             booking_url := some "https://www.booking.com/hotel/123.html",
             image_url := none } := by
  constructor <;> rfl

end Interloper
